import Mathlib

/-!
Verification of the relay status-polling helpers and API-error helpers of
the relay-gasless-examples repository.

Three pollers exist in the repository:
  - `src/origin-subsidy/src/relay/status-poller.ts` (`pollStatus`, terminal
    set `TERMINAL = {success, failure, refund}`, parameters
    `maxAttempts = 60`, `intervalMs = 5000`);
  - `src/byo-eoa-permit/lib/relay.ts` (`pollStatus`, terminal set
    `TERMINAL_STATES = {success, failure, refunded}`, parameters
    `maxAttempts = 100`, `intervalMs = 3000`);
  - the script helper of `src/unnamed/part_006` (`pollStatus`, hardcoded 60
    attempts and 5000 ms sleeps; returns nothing on "success", throws on
    "failure" and "refund").

The two app pollers share one loop shape, embedded here as `pollLoop`,
parameterised by the terminal set, the timeout message and the interval.
The environment (the status endpoint) is a function from the attempt index
to the response it yields; the observable actions of a run (fetches,
callback invocations, sleeps) are collected in an event trace.
-/

/-- A relay status response: the `status` field drives the poller, the
`requestId` field stands in for the rest of the payload so that distinct
responses with equal statuses stay distinguishable. -/
structure RelayStatusResponse where
  status : String
  requestId : String
deriving DecidableEq, Repr

/-- One observable action of a polling run: a `getStatus` fetch returning
`r`, a progress-callback invocation with argument `r`, or a timed sleep of
`ms` milliseconds. -/
inductive Event where
  | fetch (r : RelayStatusResponse)
  | cb (r : RelayStatusResponse)
  | sleep (ms : Nat)
deriving DecidableEq, Repr

/-- How a run of an app poller ends: a normal return of a response, or a
thrown `Error` carrying a message. -/
inductive Outcome where
  | returned (r : RelayStatusResponse)
  | threw (msg : String)
deriving DecidableEq, Repr

/-- How a run of the part_006 script poller ends: it returns `undefined`
on success, so a normal return carries no response. -/
inductive ScriptOutcome where
  | returnedUnit
  | threw (msg : String)
deriving DecidableEq, Repr

/-- The `onUpdate?.(status)` line: when a callback is present it runs on
the response (an `Except.error` models the callback throwing) and the
invocation is recorded in the trace; when absent nothing happens. -/
def cbStep (onUpdate : Option (RelayStatusResponse → Except String Unit))
    (r : RelayStatusResponse) : Except String Unit × List Event :=
  match onUpdate with
  | none => (Except.ok (), [])
  | some f => (f r, [Event.cb r])

/-- The shared loop of the two app pollers, compiled from
`for (let i = 0; i < maxAttempts; i++) { const status = await getStatus(...);
onUpdate?.(status); if (TERMINAL.has(status.status)) return status;
await sleep(intervalMs); } throw new Error(timeoutMsg)`.
`f` maps the attempt index to the response the endpoint yields on that
attempt, `i` is the current index and `rem` the number of loop iterations
still allowed. -/
def pollLoop (term : List String) (timeoutMsg : String) (intervalMs : Nat)
    (onUpdate : Option (RelayStatusResponse → Except String Unit))
    (f : Nat → RelayStatusResponse) : Nat → Nat → Outcome × List Event
  | _, 0 => (Outcome.threw timeoutMsg, [])
  | i, rem + 1 =>
    match (cbStep onUpdate (f i)).1 with
    | Except.error e =>
        (Outcome.threw e, Event.fetch (f i) :: (cbStep onUpdate (f i)).2)
    | Except.ok _ =>
      if (f i).status ∈ term then
        (Outcome.returned (f i), Event.fetch (f i) :: (cbStep onUpdate (f i)).2)
      else
        ((pollLoop term timeoutMsg intervalMs onUpdate f (i + 1) rem).1,
         Event.fetch (f i) :: (cbStep onUpdate (f i)).2
           ++ Event.sleep intervalMs
             :: (pollLoop term timeoutMsg intervalMs onUpdate f (i + 1) rem).2)

/-- `const TERMINAL = new Set(["success", "failure", "refund"])` of
origin-subsidy's status-poller.ts. -/
def TERMINAL : List String := ["success", "failure", "refund"]

/-- `const TERMINAL_STATES = new Set(["success", "failure", "refunded"])`
of byo-eoa-permit's lib/relay.ts. -/
def TERMINAL_STATES : List String := ["success", "failure", "refunded"]

/-- Default `maxAttempts` of the origin-subsidy poller. -/
def OS_DEFAULT_MAX_ATTEMPTS : Int := 60

/-- Default `intervalMs` of the origin-subsidy poller. -/
def OS_DEFAULT_INTERVAL_MS : Nat := 5000

/-- Default `maxAttempts` of the byo-eoa-permit poller. -/
def BYO_DEFAULT_MAX_ATTEMPTS : Int := 100

/-- Default `intervalMs` of the byo-eoa-permit poller. -/
def BYO_DEFAULT_INTERVAL_MS : Nat := 3000

/-- `pollStatus` of origin-subsidy's status-poller.ts. A JS `for` loop
`for (let i = 0; i < maxAttempts; i++)` runs `max 0 maxAttempts`
iterations, hence the `Int.toNat`. Its timeout error is
`Timed out after $\x7bmaxAttempts\x7d attempts`. -/
def pollStatus_os (f : Nat → RelayStatusResponse)
    (onUpdate : Option (RelayStatusResponse → Except String Unit))
    (maxAttempts : Int) (intervalMs : Nat) : Outcome × List Event :=
  pollLoop TERMINAL ("Timed out after " ++ toString maxAttempts ++ " attempts")
    intervalMs onUpdate f 0 maxAttempts.toNat

/-- `pollStatus` of byo-eoa-permit's lib/relay.ts. Its timeout error is
`Polling timed out after $\x7bmaxAttempts\x7d attempts`. -/
def pollStatus_byo (f : Nat → RelayStatusResponse)
    (onUpdate : Option (RelayStatusResponse → Except String Unit))
    (maxAttempts : Int) (intervalMs : Nat) : Outcome × List Event :=
  pollLoop TERMINAL_STATES
    ("Polling timed out after " ++ toString maxAttempts ++ " attempts")
    intervalMs onUpdate f 0 maxAttempts.toNat

/-- Hardcoded attempt bound of the part_006 script poller
(`for (let i = 0; i < 60; i++)`). -/
def SCRIPT_MAX_ATTEMPTS : Nat := 60

/-- Hardcoded sleep of the part_006 script poller (`setTimeout(r, 5_000)`). -/
def SCRIPT_INTERVAL_MS : Nat := 5000

/-- The loop of the part_006 script `pollStatus`: on "success" it logs and
returns (undefined); on "failure" or "refund" it throws
`Relay failed: $\x7bstatus.status\x7d`; otherwise it sleeps 5000 ms and
retries; after the loop it throws `Polling timed out`. -/
def pollScriptLoop (f : Nat → RelayStatusResponse) :
    Nat → Nat → ScriptOutcome × List Event
  | _, 0 => (ScriptOutcome.threw "Polling timed out", [])
  | i, rem + 1 =>
    if (f i).status = "success" then
      (ScriptOutcome.returnedUnit, [Event.fetch (f i)])
    else if (f i).status = "failure" ∨ (f i).status = "refund" then
      (ScriptOutcome.threw ("Relay failed: " ++ (f i).status), [Event.fetch (f i)])
    else
      ((pollScriptLoop f (i + 1) rem).1,
       Event.fetch (f i) :: Event.sleep SCRIPT_INTERVAL_MS
         :: (pollScriptLoop f (i + 1) rem).2)

/-- `pollStatus` of the part_006 script, run from attempt 0 with the
hardcoded bound of 60. -/
def pollStatus_script (f : Nat → RelayStatusResponse) :
    ScriptOutcome × List Event :=
  pollScriptLoop f 0 SCRIPT_MAX_ATTEMPTS

/-- Number of `getStatus` fetches recorded in a trace. -/
def countFetch : List Event → Nat
  | [] => 0
  | Event.fetch _ :: t => countFetch t + 1
  | _ :: t => countFetch t

/-- Number of progress-callback invocations recorded in a trace. -/
def countCb : List Event → Nat
  | [] => 0
  | Event.cb _ :: t => countCb t + 1
  | _ :: t => countCb t

/-- Number of sleeps recorded in a trace. -/
def countSleep : List Event → Nat
  | [] => 0
  | Event.sleep _ :: t => countSleep t + 1
  | _ :: t => countSleep t

/-- The responses fetched during a run, in order. -/
def fetched : List Event → List RelayStatusResponse
  | [] => []
  | Event.fetch r :: t => r :: fetched t
  | _ :: t => fetched t

/-- The arguments the progress callback was invoked with, in order. -/
def cbArgs : List Event → List RelayStatusResponse
  | [] => []
  | Event.cb r :: t => r :: cbArgs t
  | _ :: t => cbArgs t

/-- `containsList needle hay` is true when `needle` occurs contiguously in
`hay`. -/
def containsList (needle : List Char) : List Char → Bool
  | [] => needle.isEmpty
  | c :: t => needle.isPrefixOf (c :: t) || containsList needle t

/-- Substring test (`needle` occurs contiguously in `hay`), used to state
that an error message embeds a status code or a response body. -/
def strContains (hay needle : String) : Bool :=
  containsList needle.data hay.data

/-!
The HTTP helpers. A JSON value as produced by `res.json()`; string
escaping inside `JSON.stringify` is not modelled (the theorems below never
put quotes or control characters inside string payloads). -/

/-- A JSON value. -/
inductive JVal where
  | jnull
  | jbool (b : Bool)
  | jnum (n : Int)
  | jstr (s : String)
  | jarr (xs : List JVal)
  | jobj (fs : List (String × JVal))
deriving Repr

mutual

/-- `JSON.stringify` (without string escaping). -/
def jstringify : JVal → String
  | JVal.jnull => "null"
  | JVal.jbool b => if b then "true" else "false"
  | JVal.jnum n => toString n
  | JVal.jstr s => "\"" ++ s ++ "\""
  | JVal.jarr xs => "[" ++ jstringifyArr xs ++ "]"
  | JVal.jobj fs => "\x7b" ++ jstringifyObj fs ++ "\x7d"

/-- Comma-joined stringification of array elements. -/
def jstringifyArr : List JVal → String
  | [] => ""
  | [x] => jstringify x
  | x :: y :: rest => jstringify x ++ "," ++ jstringifyArr (y :: rest)

/-- Comma-joined stringification of object fields. -/
def jstringifyObj : List (String × JVal) → String
  | [] => ""
  | [p] => "\"" ++ p.1 ++ "\":" ++ jstringify p.2
  | p :: q :: rest => "\"" ++ p.1 ++ "\":" ++ jstringify p.2 ++ ","
      ++ jstringifyObj (q :: rest)

end

/-- JS truthiness of a JSON value. -/
def jTruthy : JVal → Bool
  | JVal.jnull => false
  | JVal.jbool b => b
  | JVal.jnum n => decide (n ≠ 0)
  | JVal.jstr s => decide (s ≠ "")
  | JVal.jarr _ => true
  | JVal.jobj _ => true

/-- Property access `v[k]` on a JSON value: a field of an object when
present, otherwise `undefined` (`none`). (Access on `null` is a JS
`TypeError`; the one helper that performs it, byo-eoa-permit's `getQuote`,
models that case separately.) -/
def jField (v : JVal) (k : String) : Option JVal :=
  match v with
  | JVal.jobj fs => (fs.find? (fun p => p.1 = k)).map Prod.snd
  | _ => none

/-- JS string coercion as in a template literal `$\x7bv\x7d`. -/
def jsToString : JVal → String
  | JVal.jnull => "null"
  | JVal.jbool b => if b then "true" else "false"
  | JVal.jnum n => toString n
  | JVal.jstr s => s
  | JVal.jarr xs => jstringifyArr xs
  | JVal.jobj _ => "[object Object]"

/-- An HTTP response as the helpers observe it: the `ok` flag, the numeric
status code, the raw body text (`res.text()`), the result of `res.json()`
(`none` when the body is not valid JSON and the promise rejects), and
`res.statusText`. -/
structure HttpResponse where
  ok : Bool
  status : Nat
  bodyText : String
  jsonBody : Option JVal
  statusText : String

/-- How a helper call fails: `thrown msg` is a `new Error(msg)` raised by
the helper itself; `jsonParseError` is the engine's `SyntaxError` from a
rejected `res.json()` on an ok response; `nullFieldAccess` is the engine's
`TypeError` from reading `.message` on a `null` error body. -/
inductive FetchError where
  | thrown (msg : String)
  | jsonParseError
  | nullFieldAccess
deriving DecidableEq, Repr

/-- `relayFetch` of part_006, applied to the response the `fetch` call
produced: on a non-ok response it throws
`$\x7bpath\x7d failed ($\x7bres.status\x7d): $\x7bawait res.text()\x7d`;
on an ok response it returns `res.json()`. -/
def relayFetch (path : String) (res : HttpResponse) : Except FetchError JVal :=
  if res.ok then
    match res.jsonBody with
    | some j => Except.ok j
    | none => Except.error FetchError.jsonParseError
  else
    Except.error (FetchError.thrown
      (path ++ " failed (" ++ toString res.status ++ "): " ++ res.bodyText))

/-- `getStatus` of origin-subsidy's api.ts: on a non-ok response,
`err = await res.json().catch(() => (\x7b\x7d))` and it throws
`Status check failed ($\x7bres.status\x7d): $\x7bJSON.stringify(err)\x7d`;
on an ok response it returns `res.json()`. -/
def getStatus_os (res : HttpResponse) : Except FetchError JVal :=
  if res.ok then
    match res.jsonBody with
    | some j => Except.ok j
    | none => Except.error FetchError.jsonParseError
  else
    let err := res.jsonBody.getD (JVal.jobj [])
    Except.error (FetchError.thrown
      ("Status check failed (" ++ toString res.status ++ "): " ++ jstringify err))

/-- The `||` chain of byo-eoa-permit's `getQuote`:
`err.message || err.error || JSON.stringify(err) || res.statusText`,
rendered into the template literal. -/
def byoErrMsg (err : JVal) (statusText : String) : String :=
  match (jField err "message").filter jTruthy with
  | some v => jsToString v
  | none =>
    match (jField err "error").filter jTruthy with
    | some v => jsToString v
    | none =>
      let s := jstringify err
      if s ≠ "" then s else statusText

/-- `getQuote` of byo-eoa-permit's lib/relay.ts: on a non-ok response,
`err = await res.json().catch(() => (\x7b\x7d))` and it throws
`Quote failed ($\x7bres.status\x7d): $\x7bmsg\x7d` with `msg` from
`byoErrMsg` (reading `.message` on a `null` body is a TypeError); on an ok
response it returns `res.json()`. -/
def getQuote_byo (res : HttpResponse) : Except FetchError JVal :=
  if res.ok then
    match res.jsonBody with
    | some j => Except.ok j
    | none => Except.error FetchError.jsonParseError
  else
    match res.jsonBody.getD (JVal.jobj []) with
    | JVal.jnull => Except.error FetchError.nullFieldAccess
    | err =>
      Except.error (FetchError.thrown
        ("Quote failed (" ++ toString res.status ++ "): "
          ++ byoErrMsg err res.statusText))

/-!
Specification-side trace shapes and unfolding lemmas for the loops.
-/

/-- The trace of a run that ends on the attempt at offset `m` from start
index `i` (each earlier attempt fetches, maybe invokes the callback, and
sleeps; the last attempt fetches and maybe invokes the callback). -/
def runTrace (u : Option (RelayStatusResponse → Except String Unit))
    (ims : Nat) (f : Nat → RelayStatusResponse) : Nat → Nat → List Event
  | i, 0 => Event.fetch (f i) :: (cbStep u (f i)).2
  | i, m + 1 => Event.fetch (f i) :: (cbStep u (f i)).2
      ++ Event.sleep ims :: runTrace u ims f (i + 1) m

/-- The trace of a run that exhausts `rem` attempts without stopping:
every attempt fetches, maybe invokes the callback, and sleeps. -/
def timeoutTrace (u : Option (RelayStatusResponse → Except String Unit))
    (ims : Nat) (f : Nat → RelayStatusResponse) : Nat → Nat → List Event
  | _, 0 => []
  | i, rem + 1 => Event.fetch (f i) :: (cbStep u (f i)).2
      ++ Event.sleep ims :: timeoutTrace u ims f (i + 1) rem

/-- Script-poller analogue of `runTrace` (no callback events). -/
def scriptRunTrace (f : Nat → RelayStatusResponse) : Nat → Nat → List Event
  | i, 0 => [Event.fetch (f i)]
  | i, m + 1 => Event.fetch (f i) :: Event.sleep SCRIPT_INTERVAL_MS
      :: scriptRunTrace f (i + 1) m

/-- Script-poller analogue of `timeoutTrace`. -/
def scriptTimeoutTrace (f : Nat → RelayStatusResponse) : Nat → Nat → List Event
  | _, 0 => []
  | i, rem + 1 => Event.fetch (f i) :: Event.sleep SCRIPT_INTERVAL_MS
      :: scriptTimeoutTrace f (i + 1) rem

/-- The statuses on which the part_006 script poller stops. -/
def scriptTerminalStatuses : List String := ["success", "failure", "refund"]

/-- How the part_006 script poller ends when it stops on response `r`. -/
def scriptStopOutcome (r : RelayStatusResponse) : ScriptOutcome :=
  if r.status = "success" then ScriptOutcome.returnedUnit
  else ScriptOutcome.threw ("Relay failed: " ++ r.status)

theorem pollLoop_zero (term : List String) (tmsg : String) (ims : Nat)
    (u : Option (RelayStatusResponse → Except String Unit))
    (f : Nat → RelayStatusResponse) (i : Nat) :
    pollLoop term tmsg ims u f i 0 = (Outcome.threw tmsg, []) := rfl

theorem pollLoop_succ_of_ok (term : List String) (tmsg : String) (ims : Nat)
    (u : Option (RelayStatusResponse → Except String Unit))
    (f : Nat → RelayStatusResponse) (i rem : Nat)
    (hok : (cbStep u (f i)).1 = Except.ok ()) :
    pollLoop term tmsg ims u f i (rem + 1) =
      if (f i).status ∈ term then
        (Outcome.returned (f i), Event.fetch (f i) :: (cbStep u (f i)).2)
      else
        ((pollLoop term tmsg ims u f (i + 1) rem).1,
         Event.fetch (f i) :: (cbStep u (f i)).2
           ++ Event.sleep ims :: (pollLoop term tmsg ims u f (i + 1) rem).2) := by
  simp only [pollLoop, hok]

theorem pollLoop_succ_of_error (term : List String) (tmsg : String) (ims : Nat)
    (u : Option (RelayStatusResponse → Except String Unit))
    (f : Nat → RelayStatusResponse) (i rem : Nat) (e : String)
    (herr : (cbStep u (f i)).1 = Except.error e) :
    pollLoop term tmsg ims u f i (rem + 1) =
      (Outcome.threw e, Event.fetch (f i) :: (cbStep u (f i)).2) := by
  simp only [pollLoop, herr]

theorem countFetch_append (a b : List Event) :
    countFetch (a ++ b) = countFetch a + countFetch b := by
  induction a with
  | nil => simp [countFetch]
  | cons h t ih => cases h <;> simp [countFetch, ih] <;> omega

theorem countCb_append (a b : List Event) :
    countCb (a ++ b) = countCb a + countCb b := by
  induction a with
  | nil => simp [countCb]
  | cons h t ih => cases h <;> simp [countCb, ih] <;> omega

theorem countSleep_append (a b : List Event) :
    countSleep (a ++ b) = countSleep a + countSleep b := by
  induction a with
  | nil => simp [countSleep]
  | cons h t ih => cases h <;> simp [countSleep, ih] <;> omega

theorem cbArgs_append (a b : List Event) :
    cbArgs (a ++ b) = cbArgs a ++ cbArgs b := by
  induction a with
  | nil => simp [cbArgs]
  | cons h t ih => cases h <;> simp [cbArgs, ih]

theorem fetched_append (a b : List Event) :
    fetched (a ++ b) = fetched a ++ fetched b := by
  induction a with
  | nil => simp [fetched]
  | cons h t ih => cases h <;> simp [fetched, ih]

theorem countFetch_cbStep (u : Option (RelayStatusResponse → Except String Unit))
    (r : RelayStatusResponse) : countFetch (cbStep u r).2 = 0 := by
  cases u <;> rfl

theorem countSleep_cbStep (u : Option (RelayStatusResponse → Except String Unit))
    (r : RelayStatusResponse) : countSleep (cbStep u r).2 = 0 := by
  cases u <;> rfl

theorem sleep_not_mem_cbStep (u : Option (RelayStatusResponse → Except String Unit))
    (r : RelayStatusResponse) (d : Nat) : Event.sleep d ∉ (cbStep u r).2 := by
  cases u <;> simp [cbStep]

theorem countFetch_runTrace (u : Option (RelayStatusResponse → Except String Unit))
    (ims : Nat) (f : Nat → RelayStatusResponse) :
    ∀ m i, countFetch (runTrace u ims f i m) = m + 1 := by
  intro m
  induction m with
  | zero => intro i; simp [runTrace, countFetch, countFetch_cbStep]
  | succ m ih =>
    intro i
    simp [runTrace, countFetch, countFetch_append, countFetch_cbStep, ih]

theorem countSleep_runTrace (u : Option (RelayStatusResponse → Except String Unit))
    (ims : Nat) (f : Nat → RelayStatusResponse) :
    ∀ m i, countSleep (runTrace u ims f i m) = m := by
  intro m
  induction m with
  | zero => intro i; simp [runTrace, countSleep, countSleep_cbStep]
  | succ m ih =>
    intro i
    simp [runTrace, countSleep, countSleep_append, countSleep_cbStep, ih]

theorem countCb_runTrace_none (ims : Nat) (f : Nat → RelayStatusResponse) :
    ∀ m i, countCb (runTrace none ims f i m) = 0 := by
  intro m
  induction m with
  | zero => intro i; rfl
  | succ m ih => intro i; simp [runTrace, cbStep, countCb, ih]

theorem countCb_runTrace_some (cbf : RelayStatusResponse → Except String Unit)
    (ims : Nat) (f : Nat → RelayStatusResponse) :
    ∀ m i, countCb (runTrace (some cbf) ims f i m) = m + 1 := by
  intro m
  induction m with
  | zero => intro i; rfl
  | succ m ih => intro i; simp [runTrace, cbStep, countCb, countCb_append, ih]

theorem countFetch_timeoutTrace (u : Option (RelayStatusResponse → Except String Unit))
    (ims : Nat) (f : Nat → RelayStatusResponse) :
    ∀ rem i, countFetch (timeoutTrace u ims f i rem) = rem := by
  intro rem
  induction rem with
  | zero => intro i; rfl
  | succ rem ih =>
    intro i
    simp [timeoutTrace, countFetch, countFetch_append, countFetch_cbStep, ih]

theorem countSleep_timeoutTrace (u : Option (RelayStatusResponse → Except String Unit))
    (ims : Nat) (f : Nat → RelayStatusResponse) :
    ∀ rem i, countSleep (timeoutTrace u ims f i rem) = rem := by
  intro rem
  induction rem with
  | zero => intro i; rfl
  | succ rem ih =>
    intro i
    simp [timeoutTrace, countSleep, countSleep_append, countSleep_cbStep, ih]

theorem countCb_timeoutTrace_some (cbf : RelayStatusResponse → Except String Unit)
    (ims : Nat) (f : Nat → RelayStatusResponse) :
    ∀ rem i, countCb (timeoutTrace (some cbf) ims f i rem) = rem := by
  intro rem
  induction rem with
  | zero => intro i; rfl
  | succ rem ih =>
    intro i
    simp [timeoutTrace, cbStep, countCb, countCb_append, ih]

/-- If a never-throwing callback is supplied (or none), and the first
terminal status occurs at offset `m < rem`, the loop returns that response
with the run trace of `m + 1` attempts. -/
theorem pollLoop_terminal_run (term : List String) (tmsg : String) (ims : Nat)
    (u : Option (RelayStatusResponse → Except String Unit))
    (f : Nat → RelayStatusResponse)
    (hcb : ∀ r, (cbStep u r).1 = Except.ok ()) :
    ∀ m i rem, m < rem →
      (∀ j, j < m → (f (i + j)).status ∉ term) →
      (f (i + m)).status ∈ term →
      pollLoop term tmsg ims u f i rem =
        (Outcome.returned (f (i + m)), runTrace u ims f i m) := by
  intro m
  induction m with
  | zero =>
    intro i rem hrem _ hterm
    obtain ⟨rem', rfl⟩ : ∃ rem', rem = rem' + 1 := ⟨rem - 1, by omega⟩
    rw [pollLoop_succ_of_ok term tmsg ims u f i rem' (hcb (f i))]
    simp only [Nat.add_zero] at hterm
    rw [if_pos hterm]
    simp [runTrace]
  | succ m ih =>
    intro i rem hrem hpre hterm
    obtain ⟨rem', rfl⟩ : ∃ rem', rem = rem' + 1 := ⟨rem - 1, by omega⟩
    rw [pollLoop_succ_of_ok term tmsg ims u f i rem' (hcb (f i))]
    have hnt : (f i).status ∉ term := by
      have h0 := hpre 0 (by omega)
      simpa using h0
    rw [if_neg hnt]
    have hpre' : ∀ j, j < m → (f (i + 1 + j)).status ∉ term := by
      intro j hj
      have h2 := hpre (j + 1) (by omega)
      rwa [show i + (j + 1) = i + 1 + j by omega] at h2
    have hterm' : (f (i + 1 + m)).status ∈ term := by
      rwa [show i + (m + 1) = i + 1 + m by omega] at hterm
    rw [ih (i + 1) rem' (by omega) hpre' hterm']
    simp [runTrace, show i + 1 + m = i + (m + 1) by omega]

/-- If a never-throwing callback is supplied (or none), and no terminal
status occurs within `rem` attempts, the loop throws the timeout message
after a full trace of `rem` attempts, each ending with a sleep. -/
theorem pollLoop_timeout_run (term : List String) (tmsg : String) (ims : Nat)
    (u : Option (RelayStatusResponse → Except String Unit))
    (f : Nat → RelayStatusResponse)
    (hcb : ∀ r, (cbStep u r).1 = Except.ok ()) :
    ∀ rem i, (∀ j, j < rem → (f (i + j)).status ∉ term) →
      pollLoop term tmsg ims u f i rem =
        (Outcome.threw tmsg, timeoutTrace u ims f i rem) := by
  intro rem
  induction rem with
  | zero => intro i _; rfl
  | succ rem ih =>
    intro i hpre
    rw [pollLoop_succ_of_ok term tmsg ims u f i rem (hcb (f i))]
    have hnt : (f i).status ∉ term := by
      have h0 := hpre 0 (by omega)
      simpa using h0
    rw [if_neg hnt]
    have hpre' : ∀ j, j < rem → (f (i + 1 + j)).status ∉ term := by
      intro j hj
      have h2 := hpre (j + 1) (by omega)
      rwa [show i + (j + 1) = i + 1 + j by omega] at h2
    rw [ih (i + 1) hpre']
    simp [timeoutTrace]

/-- If the callback throws for the first time at offset `m < rem` (all
earlier attempts had a non-throwing callback and a non-terminal status),
the loop propagates that exception after `m + 1` attempts. -/
theorem pollLoop_cbthrow_run (term : List String) (tmsg : String) (ims : Nat)
    (u : Option (RelayStatusResponse → Except String Unit))
    (f : Nat → RelayStatusResponse) :
    ∀ m i rem e, m < rem →
      (∀ j, j < m →
        (cbStep u (f (i + j))).1 = Except.ok () ∧ (f (i + j)).status ∉ term) →
      (cbStep u (f (i + m))).1 = Except.error e →
      pollLoop term tmsg ims u f i rem =
        (Outcome.threw e, runTrace u ims f i m) := by
  intro m
  induction m with
  | zero =>
    intro i rem e hrem _ herr
    obtain ⟨rem', rfl⟩ : ∃ rem', rem = rem' + 1 := ⟨rem - 1, by omega⟩
    simp only [Nat.add_zero] at herr
    rw [pollLoop_succ_of_error term tmsg ims u f i rem' e herr]
    simp [runTrace]
  | succ m ih =>
    intro i rem e hrem hpre herr
    obtain ⟨rem', rfl⟩ : ∃ rem', rem = rem' + 1 := ⟨rem - 1, by omega⟩
    have h0 := hpre 0 (by omega)
    simp only [Nat.add_zero] at h0
    rw [pollLoop_succ_of_ok term tmsg ims u f i rem' h0.1]
    rw [if_neg h0.2]
    have hpre' : ∀ j, j < m →
        (cbStep u (f (i + 1 + j))).1 = Except.ok () ∧ (f (i + 1 + j)).status ∉ term := by
      intro j hj
      have h2 := hpre (j + 1) (by omega)
      rwa [show i + (j + 1) = i + 1 + j by omega] at h2
    have herr' : (cbStep u (f (i + 1 + m))).1 = Except.error e := by
      rwa [show i + (m + 1) = i + 1 + m by omega] at herr
    rw [ih (i + 1) rem' e (by omega) hpre' herr']
    simp [runTrace]

/-- Whatever the environment and callback do, a normal return of the loop
carries a response whose status is in the terminal set. -/
theorem pollLoop_returned_mem (term : List String) (tmsg : String) (ims : Nat)
    (u : Option (RelayStatusResponse → Except String Unit))
    (f : Nat → RelayStatusResponse) :
    ∀ rem i r, (pollLoop term tmsg ims u f i rem).1 = Outcome.returned r →
      r.status ∈ term := by
  intro rem
  induction rem with
  | zero => intro i r h; simp [pollLoop_zero] at h
  | succ rem ih =>
    intro i r h
    rcases hc : (cbStep u (f i)).1 with e | v
    · rw [pollLoop_succ_of_error term tmsg ims u f i rem e hc] at h
      simp at h
    · cases v
      rw [pollLoop_succ_of_ok term tmsg ims u f i rem hc] at h
      by_cases hmem : (f i).status ∈ term
      · rw [if_pos hmem] at h
        simp only [Outcome.returned.injEq] at h
        rwa [← h]
      · rw [if_neg hmem] at h
        simp only at h
        exact ih (i + 1) r h

/-- Every sleep the loop performs has the configured duration. -/
theorem pollLoop_sleep_eq (term : List String) (tmsg : String) (ims : Nat)
    (u : Option (RelayStatusResponse → Except String Unit))
    (f : Nat → RelayStatusResponse) :
    ∀ rem i d, Event.sleep d ∈ (pollLoop term tmsg ims u f i rem).2 → d = ims := by
  intro rem
  induction rem with
  | zero => intro i d h; simp [pollLoop_zero] at h
  | succ rem ih =>
    intro i d h
    rcases hc : (cbStep u (f i)).1 with e | v
    · rw [pollLoop_succ_of_error term tmsg ims u f i rem e hc] at h
      simp only [List.mem_cons] at h
      rcases h with h | h
      · exact absurd h (by simp)
      · exact absurd h (sleep_not_mem_cbStep u (f i) d)
    · cases v
      rw [pollLoop_succ_of_ok term tmsg ims u f i rem hc] at h
      by_cases hmem : (f i).status ∈ term
      · rw [if_pos hmem] at h
        simp only [List.mem_cons] at h
        rcases h with h | h
        · exact absurd h (by simp)
        · exact absurd h (sleep_not_mem_cbStep u (f i) d)
      · rw [if_neg hmem] at h
        rcases List.mem_cons.mp h with h | h
        · exact absurd h (by simp)
        · rcases List.mem_append.mp h with h | h
          · exact absurd h (sleep_not_mem_cbStep u (f i) d)
          · rcases List.mem_cons.mp h with h | h
            · injection h
            · exact ih (i + 1) d h

/-- With a callback present, the sequence of arguments it receives is
exactly the sequence of fetched responses, whether the run returns, times
out, or is cut short by the callback throwing. -/
theorem pollLoop_cbArgs_eq_fetched (term : List String) (tmsg : String)
    (ims : Nat) (cbf : RelayStatusResponse → Except String Unit)
    (f : Nat → RelayStatusResponse) :
    ∀ rem i, cbArgs (pollLoop term tmsg ims (some cbf) f i rem).2 =
      fetched (pollLoop term tmsg ims (some cbf) f i rem).2 := by
  intro rem
  induction rem with
  | zero => intro i; rfl
  | succ rem ih =>
    intro i
    rcases hc : (cbStep (some cbf) (f i)).1 with e | v
    · rw [pollLoop_succ_of_error term tmsg ims (some cbf) f i rem e hc]
      simp [cbStep, cbArgs, fetched]
    · cases v
      rw [pollLoop_succ_of_ok term tmsg ims (some cbf) f i rem hc]
      by_cases hmem : (f i).status ∈ term
      · rw [if_pos hmem]
        simp [cbStep, cbArgs, fetched]
      · rw [if_neg hmem]
        simp only [cbStep, cbArgs, fetched, List.cons_append, List.nil_append]
        simp [cbArgs, fetched, ih (i + 1)]

theorem pollScriptLoop_zero (f : Nat → RelayStatusResponse) (i : Nat) :
    pollScriptLoop f i 0 = (ScriptOutcome.threw "Polling timed out", []) := rfl

/-- If the first stopping status occurs at offset `m < rem`, the script
loop stops there: it returns `undefined` on "success" and throws
`Relay failed: ...` on "failure" or "refund". -/
theorem pollScriptLoop_stop (f : Nat → RelayStatusResponse) :
    ∀ m i rem, m < rem →
      (∀ j, j < m → (f (i + j)).status ∉ scriptTerminalStatuses) →
      (f (i + m)).status ∈ scriptTerminalStatuses →
      pollScriptLoop f i rem =
        (scriptStopOutcome (f (i + m)), scriptRunTrace f i m) := by
  intro m
  induction m with
  | zero =>
    intro i rem hrem _ hterm
    obtain ⟨rem', rfl⟩ : ∃ rem', rem = rem' + 1 := ⟨rem - 1, by omega⟩
    simp only [Nat.add_zero] at hterm
    simp only [scriptTerminalStatuses, List.mem_cons, List.mem_singleton,
      List.not_mem_nil, or_false] at hterm
    by_cases hs : (f i).status = "success"
    · simp only [pollScriptLoop, scriptStopOutcome, scriptRunTrace,
        Nat.add_zero, if_pos hs]
    · have hfr : (f i).status = "failure" ∨ (f i).status = "refund" := by
        rcases hterm with h | h | h
        · exact absurd h hs
        · exact Or.inl h
        · exact Or.inr h
      simp only [pollScriptLoop, scriptStopOutcome, scriptRunTrace,
        Nat.add_zero, if_neg hs, if_pos hfr]
  | succ m ih =>
    intro i rem hrem hpre hterm
    obtain ⟨rem', rfl⟩ : ∃ rem', rem = rem' + 1 := ⟨rem - 1, by omega⟩
    have h0 : (f i).status ∉ scriptTerminalStatuses := by
      have := hpre 0 (by omega)
      simpa using this
    simp only [scriptTerminalStatuses, List.mem_cons, List.mem_singleton,
      List.not_mem_nil, or_false, not_or] at h0
    have hpre' : ∀ j, j < m → (f (i + 1 + j)).status ∉ scriptTerminalStatuses := by
      intro j hj
      have h2 := hpre (j + 1) (by omega)
      rwa [show i + (j + 1) = i + 1 + j by omega] at h2
    have hterm' : (f (i + 1 + m)).status ∈ scriptTerminalStatuses := by
      rwa [show i + (m + 1) = i + 1 + m by omega] at hterm
    have hor : ¬ ((f i).status = "failure" ∨ (f i).status = "refund") := by
      rcases h0 with ⟨_, h2, h3⟩
      intro h
      rcases h with h | h
      · exact h2 h
      · exact h3 h
    simp only [pollScriptLoop, if_neg h0.1, if_neg hor]
    rw [ih (i + 1) rem' (by omega) hpre' hterm']
    simp [scriptRunTrace, show i + 1 + m = i + (m + 1) by omega]

/-- If no stopping status occurs within `rem` attempts, the script loop
throws `Polling timed out` after a full trace of `rem` attempts. -/
theorem pollScriptLoop_timeout (f : Nat → RelayStatusResponse) :
    ∀ rem i, (∀ j, j < rem → (f (i + j)).status ∉ scriptTerminalStatuses) →
      pollScriptLoop f i rem =
        (ScriptOutcome.threw "Polling timed out", scriptTimeoutTrace f i rem) := by
  intro rem
  induction rem with
  | zero => intro i _; rfl
  | succ rem ih =>
    intro i hpre
    have h0 : (f i).status ∉ scriptTerminalStatuses := by
      have := hpre 0 (by omega)
      simpa using this
    simp only [scriptTerminalStatuses, List.mem_cons, List.mem_singleton,
      List.not_mem_nil, or_false, not_or] at h0
    have hor : ¬ ((f i).status = "failure" ∨ (f i).status = "refund") := by
      rcases h0 with ⟨_, h2, h3⟩
      intro h
      rcases h with h | h
      · exact h2 h
      · exact h3 h
    have hpre' : ∀ j, j < rem → (f (i + 1 + j)).status ∉ scriptTerminalStatuses := by
      intro j hj
      have h2 := hpre (j + 1) (by omega)
      rwa [show i + (j + 1) = i + 1 + j by omega] at h2
    simp only [pollScriptLoop, if_neg h0.1, if_neg hor]
    rw [ih (i + 1) hpre']
    simp [scriptTimeoutTrace]

theorem countFetch_scriptRunTrace (f : Nat → RelayStatusResponse) :
    ∀ m i, countFetch (scriptRunTrace f i m) = m + 1 := by
  intro m
  induction m with
  | zero => intro i; rfl
  | succ m ih => intro i; simp [scriptRunTrace, countFetch, ih]

theorem countSleep_scriptRunTrace (f : Nat → RelayStatusResponse) :
    ∀ m i, countSleep (scriptRunTrace f i m) = m := by
  intro m
  induction m with
  | zero => intro i; rfl
  | succ m ih => intro i; simp [scriptRunTrace, countSleep, ih]

theorem countFetch_scriptTimeoutTrace (f : Nat → RelayStatusResponse) :
    ∀ rem i, countFetch (scriptTimeoutTrace f i rem) = rem := by
  intro rem
  induction rem with
  | zero => intro i; rfl
  | succ rem ih => intro i; simp [scriptTimeoutTrace, countFetch, ih]

theorem countSleep_scriptTimeoutTrace (f : Nat → RelayStatusResponse) :
    ∀ rem i, countSleep (scriptTimeoutTrace f i rem) = rem := by
  intro rem
  induction rem with
  | zero => intro i; rfl
  | succ rem ih => intro i; simp [scriptTimeoutTrace, countSleep, ih]

/-- Every sleep the script loop performs lasts `SCRIPT_INTERVAL_MS`. -/
theorem pollScriptLoop_sleep_eq (f : Nat → RelayStatusResponse) :
    ∀ rem i d, Event.sleep d ∈ (pollScriptLoop f i rem).2 →
      d = SCRIPT_INTERVAL_MS := by
  intro rem
  induction rem with
  | zero => intro i d h; simp [pollScriptLoop_zero] at h
  | succ rem ih =>
    intro i d h
    by_cases hs : (f i).status = "success"
    · simp only [pollScriptLoop, if_pos hs] at h
      simp at h
    · by_cases hfr : (f i).status = "failure" ∨ (f i).status = "refund"
      · simp only [pollScriptLoop, if_neg hs, if_pos hfr] at h
        simp at h
      · simp only [pollScriptLoop, if_neg hs, if_neg hfr] at h
        rcases List.mem_cons.mp h with h | h
        · exact absurd h (by simp)
        · rcases List.mem_cons.mp h with h | h
          · injection h
          · exact ih (i + 1) d h

theorem isPrefixOf_append_self : ∀ (n suf : List Char),
    n.isPrefixOf (n ++ suf) = true := by
  intro n
  induction n with
  | nil => intro suf; cases suf <;> rfl
  | cons c t ih => intro suf; simp [List.isPrefixOf, ih]

theorem containsList_self_append (n suf : List Char) :
    containsList n (n ++ suf) = true := by
  cases n with
  | nil =>
    cases suf with
    | nil => rfl
    | cons c t => simp [containsList, List.isPrefixOf]
  | cons c t => simp [containsList, isPrefixOf_append_self]

theorem containsList_mid (n pre suf : List Char) :
    containsList n (pre ++ (n ++ suf)) = true := by
  induction pre with
  | nil => simpa using containsList_self_append n suf
  | cons c pre ih => simp [containsList, ih]

/-- A string built as `pre ++ mid ++ suf` contains `mid` as a substring:
the messages below embed whatever their templates interpolate. -/
theorem strContains_append_mid (pre mid suf : String) :
    strContains (pre ++ mid ++ suf) mid = true := by
  show containsList mid.data (pre ++ mid ++ suf).data = true
  rw [String.data_append, String.data_append, List.append_assoc]
  exact containsList_mid mid.data pre.data suf.data

/-!
Claim theorems. Concrete status sequences used by the witnesses:
-/

/-- The endpoint forever answers a non-terminal "pending" status. -/
def constPending : Nat → RelayStatusResponse := fun _ => ⟨"pending", "p"⟩

/-- The endpoint forever answers a terminal "failure" status. -/
def constFailure : Nat → RelayStatusResponse := fun _ => ⟨"failure", "f"⟩

/-- The endpoint forever answers a terminal "success" status. -/
def constSuccess : Nat → RelayStatusResponse := fun _ => ⟨"success", "s"⟩

/-- The endpoint answers "pending" on the first attempt and "success"
afterwards. -/
def pendingThenSuccess : Nat → RelayStatusResponse :=
  fun n => if n = 0 then ⟨"pending", "p"⟩ else ⟨"success", "s"⟩

/-- C3: for every run of a pollStatus instance that accepts a progress
callback (the origin-subsidy and byo-eoa-permit instances), and every
callback supplied, the callback is invoked exactly once per attempt with
the status fetched on that attempt, including the final attempt — whether
the run ends by returning a terminal status, by the callback throwing, or
by the timeout error: the sequence of callback arguments equals the
sequence of fetched responses. -/
theorem pollStatus_callback_once_per_attempt_c3
    (cbf : RelayStatusResponse → Except String Unit)
    (f : Nat → RelayStatusResponse) (ma : Int) (ims : Nat) :
    cbArgs (pollStatus_os f (some cbf) ma ims).2 =
      fetched (pollStatus_os f (some cbf) ma ims).2 ∧
    cbArgs (pollStatus_byo f (some cbf) ma ims).2 =
      fetched (pollStatus_byo f (some cbf) ma ims).2 :=
  ⟨pollLoop_cbArgs_eq_fetched TERMINAL
      ("Timed out after " ++ toString ma ++ " attempts") ims cbf f ma.toNat 0,
   pollLoop_cbArgs_eq_fetched TERMINAL_STATES
      ("Polling timed out after " ++ toString ma ++ " attempts") ims cbf f
      ma.toNat 0⟩

/-- C8: whenever pollStatus returns normally, the status of the returned
response is in the poller's terminal set; no non-terminal response is ever
returned to the caller. -/
theorem pollStatus_return_is_terminal_c8
    (f : Nat → RelayStatusResponse)
    (u : Option (RelayStatusResponse → Except String Unit))
    (ma : Int) (ims : Nat) (r : RelayStatusResponse) :
    ((pollStatus_os f u ma ims).1 = Outcome.returned r →
      r.status ∈ TERMINAL) ∧
    ((pollStatus_byo f u ma ims).1 = Outcome.returned r →
      r.status ∈ TERMINAL_STATES) :=
  ⟨fun h => pollLoop_returned_mem TERMINAL
      ("Timed out after " ++ toString ma ++ " attempts") ims u f ma.toNat 0 r h,
   fun h => pollLoop_returned_mem TERMINAL_STATES
      ("Polling timed out after " ++ toString ma ++ " attempts") ims u f
      ma.toNat 0 r h⟩

theorem pollStatus_return_is_terminal_c8_witness :
    (pollStatus_os constSuccess none 1 5000).1 =
      Outcome.returned ⟨"success", "s"⟩ ∧
    (pollStatus_byo constSuccess none 1 5000).1 =
      Outcome.returned ⟨"success", "s"⟩ ∧
    ("success" ∈ TERMINAL ∧ "success" ∈ TERMINAL_STATES) := by
  refine ⟨by decide, by decide, ?_, ?_⟩
  · exact (pollStatus_return_is_terminal_c8 constSuccess none 1 5000
      ⟨"success", "s"⟩).1 (by decide)
  · exact (pollStatus_return_is_terminal_c8 constSuccess none 1 5000
      ⟨"success", "s"⟩).2 (by decide)

/-- C9: for `maxAttempts ≤ 0`, pollStatus throws the timeout error
immediately, with an empty trace: zero fetches, zero callback
invocations, zero sleeps. -/
theorem pollStatus_nonpositive_attempts_c9
    (f : Nat → RelayStatusResponse)
    (u : Option (RelayStatusResponse → Except String Unit))
    (ims : Nat) (ma : Int) (hma : ma ≤ 0) :
    pollStatus_os f u ma ims =
      (Outcome.threw ("Timed out after " ++ toString ma ++ " attempts"), []) ∧
    pollStatus_byo f u ma ims =
      (Outcome.threw ("Polling timed out after " ++ toString ma ++ " attempts"),
       []) ∧
    countFetch (pollStatus_os f u ma ims).2 = 0 ∧
    countCb (pollStatus_os f u ma ims).2 = 0 ∧
    countSleep (pollStatus_os f u ma ims).2 = 0 := by
  have h0 : ma.toNat = 0 := by omega
  have hos : pollStatus_os f u ma ims =
      (Outcome.threw ("Timed out after " ++ toString ma ++ " attempts"), []) := by
    simp only [pollStatus_os, h0]
    rfl
  have hbyo : pollStatus_byo f u ma ims =
      (Outcome.threw ("Polling timed out after " ++ toString ma ++ " attempts"),
       []) := by
    simp only [pollStatus_byo, h0]
    rfl
  refine ⟨hos, hbyo, ?_, ?_, ?_⟩ <;> rw [hos] <;> rfl

theorem pollStatus_nonpositive_attempts_c9_witness :
    (-2 : Int) ≤ 0 ∧
    pollStatus_os constPending none (-2) 5000 =
      (Outcome.threw ("Timed out after " ++ toString (-2 : Int) ++ " attempts"),
       []) ∧
    countFetch (pollStatus_os constPending none (-2) 5000).2 = 0 := by
  have h := pollStatus_nonpositive_attempts_c9 constPending none 5000 (-2)
    (by decide)
  exact ⟨by decide, h.1, h.2.2.1⟩

/-- C4: errors raised by the progress callback are not caught: if the
callback throws on attempt `k` (earlier attempts having a non-throwing
callback and a non-terminal status), the poller propagates that exception
after exactly `k` fetches and performs no further attempts. -/
theorem pollStatus_callback_throw_propagates_c4
    (cbf : RelayStatusResponse → Except String Unit)
    (f : Nat → RelayStatusResponse) (ma : Int) (ims : Nat)
    (k : Nat) (e : String) (hk : 1 ≤ k) (hka : (k : Int) ≤ ma)
    (herr : cbf (f (k - 1)) = Except.error e) :
    ((∀ j, j < k - 1 →
        cbf (f j) = Except.ok () ∧ (f j).status ∉ TERMINAL) →
      (pollStatus_os f (some cbf) ma ims).1 = Outcome.threw e ∧
      countFetch (pollStatus_os f (some cbf) ma ims).2 = k ∧
      countSleep (pollStatus_os f (some cbf) ma ims).2 = k - 1) ∧
    ((∀ j, j < k - 1 →
        cbf (f j) = Except.ok () ∧ (f j).status ∉ TERMINAL_STATES) →
      (pollStatus_byo f (some cbf) ma ims).1 = Outcome.threw e ∧
      countFetch (pollStatus_byo f (some cbf) ma ims).2 = k ∧
      countSleep (pollStatus_byo f (some cbf) ma ims).2 = k - 1) := by
  have hlt : k - 1 < ma.toNat := by omega
  have herr0 : (cbStep (some cbf) (f (0 + (k - 1)))).1 = Except.error e := by
    simpa [cbStep] using herr
  constructor
  · intro hpre
    have hpre0 : ∀ j, j < k - 1 →
        (cbStep (some cbf) (f (0 + j))).1 = Except.ok () ∧
        (f (0 + j)).status ∉ TERMINAL := by
      intro j hj
      have h2 := hpre j hj
      simpa [cbStep] using h2
    have h := pollLoop_cbthrow_run TERMINAL
        ("Timed out after " ++ toString ma ++ " attempts") ims (some cbf) f
        (k - 1) 0 ma.toNat e hlt hpre0 herr0
    have h' : pollStatus_os f (some cbf) ma ims =
        (Outcome.threw e, runTrace (some cbf) ims f 0 (k - 1)) := h
    rw [h']
    refine ⟨rfl, ?_, ?_⟩
    · rw [countFetch_runTrace]; omega
    · rw [countSleep_runTrace]
  · intro hpre
    have hpre0 : ∀ j, j < k - 1 →
        (cbStep (some cbf) (f (0 + j))).1 = Except.ok () ∧
        (f (0 + j)).status ∉ TERMINAL_STATES := by
      intro j hj
      have h2 := hpre j hj
      simpa [cbStep] using h2
    have h := pollLoop_cbthrow_run TERMINAL_STATES
        ("Polling timed out after " ++ toString ma ++ " attempts") ims
        (some cbf) f (k - 1) 0 ma.toNat e hlt hpre0 herr0
    have h' : pollStatus_byo f (some cbf) ma ims =
        (Outcome.threw e, runTrace (some cbf) ims f 0 (k - 1)) := h
    rw [h']
    refine ⟨rfl, ?_, ?_⟩
    · rw [countFetch_runTrace]; omega
    · rw [countSleep_runTrace]

theorem pollStatus_callback_throw_propagates_c4_witness :
    (fun _ : RelayStatusResponse => (Except.error "boom" : Except String Unit))
        (constPending 0) = Except.error "boom" ∧
    (pollStatus_os constPending
        (some (fun _ => Except.error "boom")) 60 5000).1 = Outcome.threw "boom" ∧
    countFetch (pollStatus_os constPending
        (some (fun _ => Except.error "boom")) 60 5000).2 = 1 := by
  have h := pollStatus_callback_throw_propagates_c4
    (fun _ => Except.error "boom") constPending 60 5000 1 "boom"
    (by decide) (by decide) rfl
  have h1 := h.1 (by intro j hj; omega)
  exact ⟨rfl, h1.1, h1.2.1⟩

/-- C5: on any status outside {success, failure, refund, refunded} —
"waiting", "pending", "submitted", "delayed" included — no poller returns
or throws on account of that status: with attempts remaining, each poller
records the fetch (and callback, when present), sleeps for its fixed
interval, and continues with the next attempt. -/
theorem pollStatus_nonterminal_retries_c5
    (s : String)
    (hs : s ∉ ["success", "failure", "refund", "refunded"])
    (u : Option (RelayStatusResponse → Except String Unit))
    (f : Nat → RelayStatusResponse) (i rem ims : Nat) (tmsg : String)
    (hst : (f i).status = s)
    (hcb : (cbStep u (f i)).1 = Except.ok ()) :
    (pollLoop TERMINAL tmsg ims u f i (rem + 1) =
      ((pollLoop TERMINAL tmsg ims u f (i + 1) rem).1,
       Event.fetch (f i) :: (cbStep u (f i)).2
         ++ Event.sleep ims :: (pollLoop TERMINAL tmsg ims u f (i + 1) rem).2)) ∧
    (pollLoop TERMINAL_STATES tmsg ims u f i (rem + 1) =
      ((pollLoop TERMINAL_STATES tmsg ims u f (i + 1) rem).1,
       Event.fetch (f i) :: (cbStep u (f i)).2
         ++ Event.sleep ims
           :: (pollLoop TERMINAL_STATES tmsg ims u f (i + 1) rem).2)) ∧
    (pollScriptLoop f i (rem + 1) =
      ((pollScriptLoop f (i + 1) rem).1,
       Event.fetch (f i) :: Event.sleep SCRIPT_INTERVAL_MS
         :: (pollScriptLoop f (i + 1) rem).2)) := by
  simp only [List.mem_cons, List.mem_singleton, List.not_mem_nil, or_false,
    not_or] at hs
  obtain ⟨hs1, hs2, hs3, hs4⟩ := hs
  have hnt1 : (f i).status ∉ TERMINAL := by
    simp [TERMINAL, hst, hs1, hs2, hs3]
  have hnt2 : (f i).status ∉ TERMINAL_STATES := by
    simp [TERMINAL_STATES, hst, hs1, hs2, hs4]
  refine ⟨?_, ?_, ?_⟩
  · rw [pollLoop_succ_of_ok TERMINAL tmsg ims u f i rem hcb, if_neg hnt1]
  · rw [pollLoop_succ_of_ok TERMINAL_STATES tmsg ims u f i rem hcb, if_neg hnt2]
  · have hor : ¬ ((f i).status = "failure" ∨ (f i).status = "refund") := by
      rw [hst]
      intro h
      rcases h with h | h
      · exact hs2 h
      · exact hs3 h
    simp only [pollScriptLoop, if_neg (hst ▸ hs1), if_neg hor]

theorem pollStatus_nonterminal_retries_c5_witness :
    ("pending" : String) ∉ ["success", "failure", "refund", "refunded"] ∧
    pollLoop TERMINAL "t" 5000 none constPending 0 3 =
      ((pollLoop TERMINAL "t" 5000 none constPending 1 2).1,
       Event.fetch (constPending 0) :: (cbStep none (constPending 0)).2
         ++ Event.sleep 5000
           :: (pollLoop TERMINAL "t" 5000 none constPending 1 2).2) := by
  have h := pollStatus_nonterminal_retries_c5 "pending" (by decide) none
    constPending 0 2 5000 "t" rfl rfl
  exact ⟨by decide, h.1⟩

/-- C1 (counterexample): for the part_006 script `pollStatus`, a first
terminal status at attempt 1 ("failure", a member of its stopping set) is
not returned to the caller: the run performs exactly one fetch and then
throws `Relay failed: failure` instead of returning the response. -/
theorem script_pollStatus_failure_not_returned_c1_cex :
    (pollStatus_script constFailure).1 =
      ScriptOutcome.threw "Relay failed: failure" ∧
    countFetch (pollStatus_script constFailure).2 = 1 ∧
    countSleep (pollStatus_script constFailure).2 = 0 ∧
    (constFailure 0).status ∈ scriptTerminalStatuses := by
  decide

/-- C1 (amended): when the first terminal status occurs at attempt `k`
with `1 ≤ k ≤ maxAttempts` (and any supplied progress callback does not
throw), each poller performs exactly `k` fetches and `k - 1` sleeps and
stops. The origin-subsidy and byo-eoa-permit pollers return that terminal
response; the part_006 script instead returns `undefined` on "success"
and throws `Relay failed: ...` on "failure"/"refund". -/
theorem pollStatus_first_terminal_c1
    (f : Nat → RelayStatusResponse)
    (u : Option (RelayStatusResponse → Except String Unit))
    (ma : Int) (ims : Nat) (k : Nat)
    (hcb : ∀ r, (cbStep u r).1 = Except.ok ())
    (hk : 1 ≤ k) (hka : (k : Int) ≤ ma) :
    ((f (k - 1)).status ∈ TERMINAL →
      (∀ j, j < k - 1 → (f j).status ∉ TERMINAL) →
      pollStatus_os f u ma ims =
        (Outcome.returned (f (k - 1)), runTrace u ims f 0 (k - 1)) ∧
      countFetch (pollStatus_os f u ma ims).2 = k ∧
      countSleep (pollStatus_os f u ma ims).2 = k - 1) ∧
    ((f (k - 1)).status ∈ TERMINAL_STATES →
      (∀ j, j < k - 1 → (f j).status ∉ TERMINAL_STATES) →
      pollStatus_byo f u ma ims =
        (Outcome.returned (f (k - 1)), runTrace u ims f 0 (k - 1)) ∧
      countFetch (pollStatus_byo f u ma ims).2 = k ∧
      countSleep (pollStatus_byo f u ma ims).2 = k - 1) ∧
    (k ≤ SCRIPT_MAX_ATTEMPTS →
      (f (k - 1)).status ∈ scriptTerminalStatuses →
      (∀ j, j < k - 1 → (f j).status ∉ scriptTerminalStatuses) →
      pollStatus_script f =
        (scriptStopOutcome (f (k - 1)), scriptRunTrace f 0 (k - 1)) ∧
      countFetch (pollStatus_script f).2 = k ∧
      countSleep (pollStatus_script f).2 = k - 1) := by
  have hlt : k - 1 < ma.toNat := by omega
  refine ⟨?_, ?_, ?_⟩
  · intro hterm hpre
    have hpre0 : ∀ j, j < k - 1 → (f (0 + j)).status ∉ TERMINAL := by
      intro j hj; simpa using hpre j hj
    have hterm0 : (f (0 + (k - 1))).status ∈ TERMINAL := by simpa using hterm
    have h : pollStatus_os f u ma ims =
        (Outcome.returned (f (k - 1)), runTrace u ims f 0 (k - 1)) := by
      have h0 := pollLoop_terminal_run TERMINAL
        ("Timed out after " ++ toString ma ++ " attempts") ims u f hcb
        (k - 1) 0 ma.toNat hlt hpre0 hterm0
      simpa [pollStatus_os] using h0
    rw [h]
    refine ⟨rfl, ?_, ?_⟩
    · rw [countFetch_runTrace]; omega
    · rw [countSleep_runTrace]
  · intro hterm hpre
    have hpre0 : ∀ j, j < k - 1 → (f (0 + j)).status ∉ TERMINAL_STATES := by
      intro j hj; simpa using hpre j hj
    have hterm0 : (f (0 + (k - 1))).status ∈ TERMINAL_STATES := by
      simpa using hterm
    have h : pollStatus_byo f u ma ims =
        (Outcome.returned (f (k - 1)), runTrace u ims f 0 (k - 1)) := by
      have h0 := pollLoop_terminal_run TERMINAL_STATES
        ("Polling timed out after " ++ toString ma ++ " attempts") ims u f hcb
        (k - 1) 0 ma.toNat hlt hpre0 hterm0
      simpa [pollStatus_byo] using h0
    rw [h]
    refine ⟨rfl, ?_, ?_⟩
    · rw [countFetch_runTrace]; omega
    · rw [countSleep_runTrace]
  · intro hks hterm hpre
    have hpre0 : ∀ j, j < k - 1 → (f (0 + j)).status ∉ scriptTerminalStatuses := by
      intro j hj; simpa using hpre j hj
    have hterm0 : (f (0 + (k - 1))).status ∈ scriptTerminalStatuses := by
      simpa using hterm
    have h : pollStatus_script f =
        (scriptStopOutcome (f (k - 1)), scriptRunTrace f 0 (k - 1)) := by
      have h0 := pollScriptLoop_stop f (k - 1) 0 SCRIPT_MAX_ATTEMPTS
        (by omega) hpre0 hterm0
      simpa [pollStatus_script] using h0
    rw [h]
    refine ⟨rfl, ?_, ?_⟩
    · rw [countFetch_scriptRunTrace]; omega
    · rw [countSleep_scriptRunTrace]

theorem pollStatus_first_terminal_c1_witness :
    (pendingThenSuccess 1).status ∈ TERMINAL ∧
    pollStatus_os pendingThenSuccess none 60 5000 =
      (Outcome.returned (pendingThenSuccess 1),
       runTrace none 5000 pendingThenSuccess 0 1) ∧
    countFetch (pollStatus_os pendingThenSuccess none 60 5000).2 = 2 ∧
    countSleep (pollStatus_os pendingThenSuccess none 60 5000).2 = 1 := by
  have h := (pollStatus_first_terminal_c1 pendingThenSuccess none 60 5000 2
    (fun r => rfl) (by decide) (by decide)).1 (by decide) (by decide)
  exact ⟨by decide, h.1, h.2.1, h.2.2⟩

/-- C2 (counterexample): the part_006 script `pollStatus`, fed a status
that never becomes terminal, performs exactly 60 fetches and then throws
`Polling timed out` — a message that does not name the attempt count. -/
theorem script_timeout_message_lacks_count_c2_cex :
    (pollStatus_script constPending).1 =
      ScriptOutcome.threw "Polling timed out" ∧
    countFetch (pollStatus_script constPending).2 = 60 ∧
    strContains "Polling timed out" "60" = false := by
  decide

/-- C2 (amended): when no terminal status appears within the attempt
budget (and any supplied progress callback does not throw), the
origin-subsidy and byo-eoa-permit pollers perform exactly `maxAttempts`
fetches and throw a timeout error whose message names the attempt count;
the part_006 script performs exactly 60 fetches and throws the fixed
message `Polling timed out`, which does not name the count. -/
theorem pollStatus_timeout_c2
    (f : Nat → RelayStatusResponse)
    (u : Option (RelayStatusResponse → Except String Unit))
    (ma : Int) (ims : Nat)
    (hcb : ∀ r, (cbStep u r).1 = Except.ok ()) :
    ((∀ j, j < ma.toNat → (f j).status ∉ TERMINAL) →
      pollStatus_os f u ma ims =
        (Outcome.threw ("Timed out after " ++ toString ma ++ " attempts"),
         timeoutTrace u ims f 0 ma.toNat) ∧
      countFetch (pollStatus_os f u ma ims).2 = ma.toNat ∧
      strContains ("Timed out after " ++ toString ma ++ " attempts")
        (toString ma) = true) ∧
    ((∀ j, j < ma.toNat → (f j).status ∉ TERMINAL_STATES) →
      pollStatus_byo f u ma ims =
        (Outcome.threw
          ("Polling timed out after " ++ toString ma ++ " attempts"),
         timeoutTrace u ims f 0 ma.toNat) ∧
      countFetch (pollStatus_byo f u ma ims).2 = ma.toNat ∧
      strContains ("Polling timed out after " ++ toString ma ++ " attempts")
        (toString ma) = true) ∧
    ((∀ j, j < SCRIPT_MAX_ATTEMPTS → (f j).status ∉ scriptTerminalStatuses) →
      pollStatus_script f =
        (ScriptOutcome.threw "Polling timed out",
         scriptTimeoutTrace f 0 SCRIPT_MAX_ATTEMPTS) ∧
      countFetch (pollStatus_script f).2 = SCRIPT_MAX_ATTEMPTS ∧
      strContains "Polling timed out" (toString SCRIPT_MAX_ATTEMPTS) = false) := by
  refine ⟨?_, ?_, ?_⟩
  · intro hpre
    have hpre0 : ∀ j, j < ma.toNat → (f (0 + j)).status ∉ TERMINAL := by
      intro j hj; simpa using hpre j hj
    have h : pollStatus_os f u ma ims =
        (Outcome.threw ("Timed out after " ++ toString ma ++ " attempts"),
         timeoutTrace u ims f 0 ma.toNat) := by
      have h0 := pollLoop_timeout_run TERMINAL
        ("Timed out after " ++ toString ma ++ " attempts") ims u f hcb
        ma.toNat 0 hpre0
      simpa [pollStatus_os] using h0
    rw [h]
    exact ⟨rfl, countFetch_timeoutTrace u ims f ma.toNat 0,
      strContains_append_mid "Timed out after " (toString ma) " attempts"⟩
  · intro hpre
    have hpre0 : ∀ j, j < ma.toNat → (f (0 + j)).status ∉ TERMINAL_STATES := by
      intro j hj; simpa using hpre j hj
    have h : pollStatus_byo f u ma ims =
        (Outcome.threw
          ("Polling timed out after " ++ toString ma ++ " attempts"),
         timeoutTrace u ims f 0 ma.toNat) := by
      have h0 := pollLoop_timeout_run TERMINAL_STATES
        ("Polling timed out after " ++ toString ma ++ " attempts") ims u f hcb
        ma.toNat 0 hpre0
      simpa [pollStatus_byo] using h0
    rw [h]
    exact ⟨rfl, countFetch_timeoutTrace u ims f ma.toNat 0,
      strContains_append_mid "Polling timed out after " (toString ma)
        " attempts"⟩
  · intro hpre
    have hpre0 : ∀ j, j < SCRIPT_MAX_ATTEMPTS →
        (f (0 + j)).status ∉ scriptTerminalStatuses := by
      intro j hj; simpa using hpre j hj
    have h : pollStatus_script f =
        (ScriptOutcome.threw "Polling timed out",
         scriptTimeoutTrace f 0 SCRIPT_MAX_ATTEMPTS) := by
      have h0 := pollScriptLoop_timeout f SCRIPT_MAX_ATTEMPTS 0 hpre0
      simpa [pollStatus_script] using h0
    rw [h]
    exact ⟨rfl, countFetch_scriptTimeoutTrace f SCRIPT_MAX_ATTEMPTS 0,
      by decide⟩

theorem pollStatus_timeout_c2_witness :
    pollStatus_os constPending none 2 7 =
      (Outcome.threw ("Timed out after " ++ toString (2 : Int) ++ " attempts"),
       timeoutTrace none 7 constPending 0 (2 : Int).toNat) ∧
    countFetch (pollStatus_os constPending none 2 7).2 = (2 : Int).toNat ∧
    strContains ("Timed out after " ++ toString (2 : Int) ++ " attempts")
      (toString (2 : Int)) = true ∧
    countFetch (pollStatus_script constPending).2 = SCRIPT_MAX_ATTEMPTS := by
  have h := pollStatus_timeout_c2 constPending none 2 7 (fun r => rfl)
  have h1 := h.1 (by decide)
  have h3 := h.2.2 (by decide)
  exact ⟨h1.1, h1.2.1, h1.2.2, h3.2.1⟩

/-- C7: every pollStatus instance is configured with a maximum attempt
count of 60 or 100 and a fixed interval of 3000 or 5000 ms, and every
sleep any run performs lasts exactly the configured `intervalMs`,
independent of the attempt index (no backoff, no jitter). -/
theorem pollStatus_fixed_interval_c7 :
    (OS_DEFAULT_MAX_ATTEMPTS = 60 ∨ OS_DEFAULT_MAX_ATTEMPTS = 100) ∧
    (OS_DEFAULT_INTERVAL_MS = 3000 ∨ OS_DEFAULT_INTERVAL_MS = 5000) ∧
    (BYO_DEFAULT_MAX_ATTEMPTS = 60 ∨ BYO_DEFAULT_MAX_ATTEMPTS = 100) ∧
    (BYO_DEFAULT_INTERVAL_MS = 3000 ∨ BYO_DEFAULT_INTERVAL_MS = 5000) ∧
    (SCRIPT_MAX_ATTEMPTS = 60 ∨ SCRIPT_MAX_ATTEMPTS = 100) ∧
    (SCRIPT_INTERVAL_MS = 3000 ∨ SCRIPT_INTERVAL_MS = 5000) ∧
    (∀ (f : Nat → RelayStatusResponse)
       (u : Option (RelayStatusResponse → Except String Unit))
       (ma : Int) (ims d : Nat),
      Event.sleep d ∈ (pollStatus_os f u ma ims).2 → d = ims) ∧
    (∀ (f : Nat → RelayStatusResponse)
       (u : Option (RelayStatusResponse → Except String Unit))
       (ma : Int) (ims d : Nat),
      Event.sleep d ∈ (pollStatus_byo f u ma ims).2 → d = ims) ∧
    (∀ (f : Nat → RelayStatusResponse) (d : Nat),
      Event.sleep d ∈ (pollStatus_script f).2 → d = SCRIPT_INTERVAL_MS) := by
  refine ⟨Or.inl rfl, Or.inr rfl, Or.inr rfl, Or.inl rfl, Or.inl rfl,
    Or.inr rfl, ?_, ?_, ?_⟩
  · intro f u ma ims d h
    exact pollLoop_sleep_eq TERMINAL
      ("Timed out after " ++ toString ma ++ " attempts") ims u f ma.toNat 0 d h
  · intro f u ma ims d h
    exact pollLoop_sleep_eq TERMINAL_STATES
      ("Polling timed out after " ++ toString ma ++ " attempts") ims u f
      ma.toNat 0 d h
  · intro f d h
    exact pollScriptLoop_sleep_eq f SCRIPT_MAX_ATTEMPTS 0 d h

theorem pollStatus_fixed_interval_c7_witness :
    Event.sleep 5000 ∈ (pollStatus_os constPending none 2 5000).2 ∧
    5000 = 5000 := by
  refine ⟨by decide, ?_⟩
  exact pollStatus_fixed_interval_c7.2.2.2.2.2.2.1 constPending none 2 5000
    5000 (by decide)

/-- C10: on a timeout run the pollers sleep after the final attempt as
well: exactly `maxAttempts` sleeps (not `maxAttempts - 1`) are performed
before the timeout error is thrown; likewise the script poller performs
60 sleeps for its 60 attempts. -/
theorem pollStatus_timeout_sleep_count_c10
    (f : Nat → RelayStatusResponse)
    (u : Option (RelayStatusResponse → Except String Unit))
    (ma : Int) (ims : Nat)
    (hcb : ∀ r, (cbStep u r).1 = Except.ok ()) :
    ((∀ j, j < ma.toNat → (f j).status ∉ TERMINAL) →
      countSleep (pollStatus_os f u ma ims).2 = ma.toNat ∧
      countFetch (pollStatus_os f u ma ims).2 = ma.toNat ∧
      (pollStatus_os f u ma ims).1 =
        Outcome.threw ("Timed out after " ++ toString ma ++ " attempts")) ∧
    ((∀ j, j < ma.toNat → (f j).status ∉ TERMINAL_STATES) →
      countSleep (pollStatus_byo f u ma ims).2 = ma.toNat ∧
      countFetch (pollStatus_byo f u ma ims).2 = ma.toNat ∧
      (pollStatus_byo f u ma ims).1 =
        Outcome.threw
          ("Polling timed out after " ++ toString ma ++ " attempts")) ∧
    ((∀ j, j < SCRIPT_MAX_ATTEMPTS → (f j).status ∉ scriptTerminalStatuses) →
      countSleep (pollStatus_script f).2 = SCRIPT_MAX_ATTEMPTS ∧
      countFetch (pollStatus_script f).2 = SCRIPT_MAX_ATTEMPTS) := by
  refine ⟨?_, ?_, ?_⟩
  · intro hpre
    have hpre0 : ∀ j, j < ma.toNat → (f (0 + j)).status ∉ TERMINAL := by
      intro j hj; simpa using hpre j hj
    have h : pollStatus_os f u ma ims =
        (Outcome.threw ("Timed out after " ++ toString ma ++ " attempts"),
         timeoutTrace u ims f 0 ma.toNat) := by
      have h0 := pollLoop_timeout_run TERMINAL
        ("Timed out after " ++ toString ma ++ " attempts") ims u f hcb
        ma.toNat 0 hpre0
      simpa [pollStatus_os] using h0
    rw [h]
    exact ⟨countSleep_timeoutTrace u ims f ma.toNat 0,
      countFetch_timeoutTrace u ims f ma.toNat 0, rfl⟩
  · intro hpre
    have hpre0 : ∀ j, j < ma.toNat → (f (0 + j)).status ∉ TERMINAL_STATES := by
      intro j hj; simpa using hpre j hj
    have h : pollStatus_byo f u ma ims =
        (Outcome.threw
          ("Polling timed out after " ++ toString ma ++ " attempts"),
         timeoutTrace u ims f 0 ma.toNat) := by
      have h0 := pollLoop_timeout_run TERMINAL_STATES
        ("Polling timed out after " ++ toString ma ++ " attempts") ims u f hcb
        ma.toNat 0 hpre0
      simpa [pollStatus_byo] using h0
    rw [h]
    exact ⟨countSleep_timeoutTrace u ims f ma.toNat 0,
      countFetch_timeoutTrace u ims f ma.toNat 0, rfl⟩
  · intro hpre
    have hpre0 : ∀ j, j < SCRIPT_MAX_ATTEMPTS →
        (f (0 + j)).status ∉ scriptTerminalStatuses := by
      intro j hj; simpa using hpre j hj
    have h : pollStatus_script f =
        (ScriptOutcome.threw "Polling timed out",
         scriptTimeoutTrace f 0 SCRIPT_MAX_ATTEMPTS) := by
      have h0 := pollScriptLoop_timeout f SCRIPT_MAX_ATTEMPTS 0 hpre0
      simpa [pollStatus_script] using h0
    rw [h]
    exact ⟨countSleep_scriptTimeoutTrace f SCRIPT_MAX_ATTEMPTS 0,
      countFetch_scriptTimeoutTrace f SCRIPT_MAX_ATTEMPTS 0⟩

theorem pollStatus_timeout_sleep_count_c10_witness :
    countSleep (pollStatus_os constPending none 2 7).2 = (2 : Int).toNat ∧
    countFetch (pollStatus_os constPending none 2 7).2 = (2 : Int).toNat ∧
    countSleep (pollStatus_script constPending).2 = SCRIPT_MAX_ATTEMPTS := by
  have h := pollStatus_timeout_sleep_count_c10 constPending none 2 7
    (fun r => rfl)
  have h1 := h.1 (by decide)
  have h3 := h.2.2 (by decide)
  exact ⟨h1.1, h1.2.1, h3.1⟩

theorem strContains_mid_of_four (a b c d : String) :
    strContains (a ++ b ++ c ++ d) b = true := by
  rw [String.append_assoc (a ++ b) c d]
  exact strContains_append_mid a b (c ++ d)

theorem strContains_end (a b : String) : strContains (a ++ b) b = true := by
  have h := strContains_append_mid a b ""
  rwa [String.append_empty] at h

theorem relayFetch_error_iff (path : String) (res : HttpResponse) :
    (∃ e, relayFetch path res = Except.error e) ↔
      (res.ok = false ∨ res.jsonBody = none) := by
  cases hok : res.ok
  · simp [relayFetch, hok]
  · cases hj : res.jsonBody with
    | none => simp [relayFetch, hok, hj]
    | some j => simp [relayFetch, hok, hj]

theorem getStatus_os_error_iff (res : HttpResponse) :
    (∃ e, getStatus_os res = Except.error e) ↔
      (res.ok = false ∨ res.jsonBody = none) := by
  cases hok : res.ok
  · simp [getStatus_os, hok]
  · cases hj : res.jsonBody with
    | none => simp [getStatus_os, hok, hj]
    | some j => simp [getStatus_os, hok, hj]

theorem getQuote_byo_error_iff (res : HttpResponse) :
    (∃ e, getQuote_byo res = Except.error e) ↔
      (res.ok = false ∨ res.jsonBody = none) := by
  cases hok : res.ok
  · cases hj : res.jsonBody with
    | none => simp [getQuote_byo, hok, hj]
    | some j => cases j <;> simp [getQuote_byo, hok, hj]
  · cases hj : res.jsonBody with
    | none => simp [getQuote_byo, hok, hj]
    | some j => simp [getQuote_byo, hok, hj]

/-- A non-ok response whose body is not valid JSON (`res.json()` rejects,
so the `.catch` substitutes an empty object). -/
def unparseableErrorResponse : HttpResponse :=
  { ok := false, status := 500, bodyText := "oops", jsonBody := none,
    statusText := "Internal Server Error" }

/-- A non-ok response with a JSON error body carrying a `message` field. -/
def badJsonErrorResponse : HttpResponse :=
  { ok := false, status := 400,
    bodyText := "\x7b\"message\":\"insufficient funds\"\x7d",
    jsonBody := some (JVal.jobj [("message", JVal.jstr "insufficient funds")]),
    statusText := "Bad Request" }

/-- An ok response with an empty JSON object body. -/
def okJsonResponse : HttpResponse :=
  { ok := true, status := 200, bodyText := "\x7b\x7d",
    jsonBody := some (JVal.jobj []), statusText := "OK" }

/-- C6 (counterexample): origin-subsidy's `getStatus`, on a non-ok
response whose body "oops" is not valid JSON, throws
`Status check failed (500): \x7b\x7d` — the message embeds the status
code but not the response body, so "throw ... and the thrown error's
message embeds the HTTP status code and the response body" fails as
stated. -/
theorem getStatus_message_omits_body_c6_cex :
    unparseableErrorResponse.ok = false ∧
    unparseableErrorResponse.bodyText = "oops" ∧
    getStatus_os unparseableErrorResponse =
      Except.error (FetchError.thrown "Status check failed (500): \x7b\x7d") ∧
    strContains "Status check failed (500): \x7b\x7d" "oops" = false := by
  exact ⟨rfl, rfl, rfl, by decide⟩

/-- C6 (amended): each helper throws exactly when the response is not ok
or `res.json()` rejects where the result is returned; on a non-ok
response the message embeds the HTTP status code, `relayFetch` embeds the
raw body text, `getStatus` embeds `JSON.stringify` of the parsed body
(`\x7b\x7d` when the body does not parse), and byo-eoa-permit's
`getQuote` embeds the `err.message || err.error || JSON.stringify(err) ||
res.statusText` rendering of the parsed body; on an ok response with a
JSON body each helper returns the parsed body. -/
theorem relay_helpers_error_contract_c6 (path : String) (res : HttpResponse) :
    ((∃ e, relayFetch path res = Except.error e) ↔
      (res.ok = false ∨ res.jsonBody = none)) ∧
    ((∃ e, getStatus_os res = Except.error e) ↔
      (res.ok = false ∨ res.jsonBody = none)) ∧
    ((∃ e, getQuote_byo res = Except.error e) ↔
      (res.ok = false ∨ res.jsonBody = none)) ∧
    (res.ok = false →
      relayFetch path res = Except.error (FetchError.thrown
        (path ++ " failed (" ++ toString res.status ++ "): "
          ++ res.bodyText)) ∧
      strContains
        (path ++ " failed (" ++ toString res.status ++ "): " ++ res.bodyText)
        (toString res.status) = true ∧
      strContains
        (path ++ " failed (" ++ toString res.status ++ "): " ++ res.bodyText)
        res.bodyText = true) ∧
    (res.ok = false →
      getStatus_os res = Except.error (FetchError.thrown
        ("Status check failed (" ++ toString res.status ++ "): "
          ++ jstringify (res.jsonBody.getD (JVal.jobj [])))) ∧
      strContains
        ("Status check failed (" ++ toString res.status ++ "): "
          ++ jstringify (res.jsonBody.getD (JVal.jobj [])))
        (toString res.status) = true ∧
      strContains
        ("Status check failed (" ++ toString res.status ++ "): "
          ++ jstringify (res.jsonBody.getD (JVal.jobj [])))
        (jstringify (res.jsonBody.getD (JVal.jobj []))) = true) ∧
    (res.ok = false → ∀ j, res.jsonBody = some j → j ≠ JVal.jnull →
      getQuote_byo res = Except.error (FetchError.thrown
        ("Quote failed (" ++ toString res.status ++ "): "
          ++ byoErrMsg j res.statusText)) ∧
      strContains
        ("Quote failed (" ++ toString res.status ++ "): "
          ++ byoErrMsg j res.statusText)
        (toString res.status) = true) ∧
    (res.ok = true → ∀ j, res.jsonBody = some j →
      relayFetch path res = Except.ok j ∧
      getStatus_os res = Except.ok j ∧
      getQuote_byo res = Except.ok j) := by
  refine ⟨relayFetch_error_iff path res, getStatus_os_error_iff res,
    getQuote_byo_error_iff res, ?_, ?_, ?_, ?_⟩
  · intro hok
    refine ⟨by simp [relayFetch, hok], ?_, ?_⟩
    · exact strContains_mid_of_four (path ++ " failed (")
        (toString res.status) "): " res.bodyText
    · exact strContains_end
        (path ++ " failed (" ++ toString res.status ++ "): ") res.bodyText
  · intro hok
    refine ⟨by simp [getStatus_os, hok], ?_, ?_⟩
    · exact strContains_mid_of_four "Status check failed ("
        (toString res.status) "): "
        (jstringify (res.jsonBody.getD (JVal.jobj [])))
    · exact strContains_end
        ("Status check failed (" ++ toString res.status ++ "): ")
        (jstringify (res.jsonBody.getD (JVal.jobj [])))
  · intro hok j hj hnull
    have hdef : getQuote_byo res = Except.error (FetchError.thrown
        ("Quote failed (" ++ toString res.status ++ "): "
          ++ byoErrMsg j res.statusText)) := by
      cases j with
      | jnull => exact absurd rfl hnull
      | jbool b => simp [getQuote_byo, hok, hj]
      | jnum n => simp [getQuote_byo, hok, hj]
      | jstr s => simp [getQuote_byo, hok, hj]
      | jarr xs => simp [getQuote_byo, hok, hj]
      | jobj fs => simp [getQuote_byo, hok, hj]
    exact ⟨hdef, strContains_mid_of_four "Quote failed ("
      (toString res.status) "): " (byoErrMsg j res.statusText)⟩
  · intro hok j hj
    exact ⟨by simp [relayFetch, hok, hj], by simp [getStatus_os, hok, hj],
      by simp [getQuote_byo, hok, hj]⟩

theorem relay_helpers_error_contract_c6_witness :
    (badJsonErrorResponse.ok = false ∧ okJsonResponse.ok = true) ∧
    getQuote_byo badJsonErrorResponse = Except.error (FetchError.thrown
      ("Quote failed (" ++ toString badJsonErrorResponse.status ++ "): "
        ++ byoErrMsg (JVal.jobj [("message", JVal.jstr "insufficient funds")])
            badJsonErrorResponse.statusText)) ∧
    relayFetch "/execute" okJsonResponse = Except.ok (JVal.jobj []) ∧
    relayFetch "/execute" badJsonErrorResponse =
      Except.error (FetchError.thrown
        ("/execute" ++ " failed (" ++ toString badJsonErrorResponse.status
          ++ "): " ++ badJsonErrorResponse.bodyText)) := by
  have h1 := relay_helpers_error_contract_c6 "/execute" badJsonErrorResponse
  have h2 := relay_helpers_error_contract_c6 "/execute" okJsonResponse
  refine ⟨⟨rfl, rfl⟩, ?_, ?_, ?_⟩
  · exact (h1.2.2.2.2.2.1 rfl
      (JVal.jobj [("message", JVal.jstr "insufficient funds")]) rfl
      (fun h => JVal.noConfusion h)).1
  · exact ((h2.2.2.2.2.2.2 rfl (JVal.jobj []) rfl).1)
  · exact (h1.2.2.2.1 rfl).1
